import Mathlib

/-!
Verification of the blog-generation workflow core: the two LLM-backed
nodes (`title_creation`, `content_generation` in src/nodes/blog_node.py),
the topology builder (`build_topic_graph`, `setup_graph` in
src/graphs/graph_builder.py), and the linear graph engine (state merge,
compile, run) that drives them.
-/

namespace BlogGen

/-- Modelled from the spec: src/states/blogstate.py is not in the sources;
§3 defines the nested blog structure as optional `title` and optional
`content` strings. An absent field models an absent dictionary key. -/
structure BlogVal where
  title : Option String := none
  content : Option String := none
deriving DecidableEq, Repr

/-- Modelled from the spec: src/states/blogstate.py is not in the sources;
§3 defines WorkflowState as optional `topic` string and optional `blog`
structure. `none` models the key being absent from the state dict. -/
structure BlogState where
  topic : Option String := none
  blog : Option BlogVal := none
deriving DecidableEq, Repr

/-- A partial update returned by a node: each `some` field is a key present
in the returned dict, replacing the state's value wholesale on merge. -/
structure StateUpdate where
  topic : Option String := none
  blog : Option BlogVal := none
deriving DecidableEq, Repr

/-- Modelled from the spec: §4.1 merge is shallow at the top level — every
key present in the update replaces the state's value wholesale (the nested
blog structure is not deep-merged); all other keys are preserved. -/
def mergeState (s : BlogState) (u : StateUpdate) : BlogState :=
  { topic := match u.topic with
      | some t => some t
      | none => s.topic
    blog := match u.blog with
      | some b => some b
      | none => s.blog }

/-- Errors a node can raise: a required upstream field is absent
(Python KeyError on `state['blog']` or `['title']`; spec §7
MissingFieldError). -/
inductive NodeError where
  | missingField (field : String)
deriving DecidableEq, Repr

/-- The Python truthiness test `"topic" in state and state["topic"]`:
the key is present and its string value is non-empty. -/
def topicTruthy (s : BlogState) : Bool :=
  match s.topic with
  | some t => t ≠ ""
  | none => false

/-- The title prompt of `BlogNode.title_creation` after
`prompt.format(topic=...)`, whitespace as in the source triple-quoted
string. -/
def titlePrompt (topic : String) : String :=
  "\n                   You are an expert blog content writer. Use Markdown formatting. Generate\n                   a blog title for the " ++ topic ++ ". This title should be creative and SEO friendly\n\n                   "

/-- The content prompt of `BlogNode.content_generation` after
`system_prompt.format(topic=...)`, whitespace as in the source. -/
def contentPrompt (topic : String) : String :=
  "You are expert blog writer. Use Markdown formatting.\n            Generate a detailed blog content with detailed breakdown for the " ++ topic

/-- Result of one node invocation: the raised-or-returned outcome
(`Except.ok none` is Python's implicit `return None`, a no-op update),
paired with the list of prompts sent to the LLM during the call. -/
def NodeResult := Except NodeError (Option StateUpdate) × List String

/-- `BlogNode.title_creation`: if the topic is present and truthy, format
the title prompt, call the LLM once, and return `{blog: {title: response}}`;
otherwise fall through returning `None`. The LLM is the opaque
`generate : prompt → response.content` capability (spec §6). -/
def title_creation (llm : String → String) (state : BlogState) : NodeResult :=
  match state.topic with
  | some t =>
    if t = "" then (Except.ok none, [])
    else
      let sytem_message := titlePrompt t
      let response := llm sytem_message
      (Except.ok (some { blog := some { title := some response } }), [sytem_message])
  | none => (Except.ok none, [])

/-- `BlogNode.content_generation`: if the topic is present and truthy,
format the content prompt, call the LLM once, then read
`state['blog']['title']` — raising a missing-field error if the `blog` key
or its `title` is absent — and return
`{blog: {title: <carried title>, content: response}}`. The LLM call
happens before the title lookup, as in the source. -/
def content_generation (llm : String → String) (state : BlogState) : NodeResult :=
  match state.topic with
  | some t =>
    if t = "" then (Except.ok none, [])
    else
      let system_message := contentPrompt t
      let response := llm system_message
      match state.blog with
      | none => (Except.error (NodeError.missingField "blog"), [system_message])
      | some b =>
        match b.title with
        | none => (Except.error (NodeError.missingField "title"), [system_message])
        | some ti =>
          (Except.ok (some { blog := some { title := some ti, content := some response } }),
           [system_message])
  | none => (Except.ok none, [])

/-- A node's executable form, as registered in a graph. -/
def NodeFn := BlogState → NodeResult

/-- The START sentinel endpoint of edges. -/
def START : String := "__start__"

/-- The END sentinel endpoint of edges. -/
def ENDS : String := "__end__"

/-- Modelled from the spec: §3 GraphDefinition — a mutable builder holding
named nodes and directed edges between names or the sentinels
(the langgraph `StateGraph` dependency is not part of the sources). -/
structure StateGraph where
  nodes : List (String × NodeFn) := []
  edges : List (String × String) := []

/-- `add_node(name, fn)`: register a node under a name. -/
def StateGraph.add_node (g : StateGraph) (name : String) (fn : NodeFn) : StateGraph :=
  { g with nodes := g.nodes ++ [(name, fn)] }

/-- `add_edge(from, to)`: register a directed edge. -/
def StateGraph.add_edge (g : StateGraph) (a b : String) : StateGraph :=
  { g with edges := g.edges ++ [(a, b)] }

/-- Structural defect detected at compile time (spec §7
GraphValidationError). -/
inductive GraphError where
  | validation (msg : String)
deriving DecidableEq, Repr

/-- All `to`-endpoints of edges leaving `n`. -/
def successorsOf (edges : List (String × String)) (n : String) : List String :=
  (edges.filter (fun e => e.fst = n)).map Prod.snd

/-- Follow the unique successor of each name starting at `cur`, collecting
the names visited before END. `none` when a name has zero or several
successors, or the fuel runs out (a cycle). -/
def chainFrom (edges : List (String × String)) (cur : String) : Nat → Option (List String)
  | 0 => none
  | fuel + 1 =>
    if cur = ENDS then some []
    else
      match successorsOf edges cur with
      | [next] => (chainFrom edges next fuel).map (fun rest => cur :: rest)
      | _ => none

/-- The frozen, runnable form of a graph: its nodes resolved into a fixed
execution order (spec §3 CompiledGraph). -/
structure CompiledGraph where
  steps : List (String × NodeFn)

/-- The node-name execution order of a compiled graph. -/
def CompiledGraph.order (c : CompiledGraph) : List String :=
  c.steps.map Prod.fst

/-- Modelled from the spec: §4.3 `compile()` validates the edge set
(single path from START to END, no orphan nodes, no cycles, no missing
targets), computes the one topological order of the linear chain, and
freezes it; any invariant violation is a validation error. -/
def StateGraph.compile (g : StateGraph) : Except GraphError CompiledGraph :=
  match chainFrom g.edges START (g.edges.length + 1) with
  | none => Except.error (GraphError.validation "no single path from START to END")
  | some path =>
    let order := path.drop 1
    if order.all (fun n => (g.nodes.lookup n).isSome)
        && g.nodes.all (fun p => order.contains p.fst) then
      Except.ok { steps := order.filterMap (fun n => (g.nodes.lookup n).map (fun f => (n, f))) }
    else
      Except.error (GraphError.validation "orphan node or missing target")

/-- Everything observable about one run: the final state or the
propagated node error, the prompts sent to the LLM in order, the node
names invoked in order, and the successive states (initial state first,
then the state after each merged node). -/
structure RunResult where
  result : Except NodeError BlogState
  llmCalls : List String
  invoked : List String
  states : List BlogState

/-- Walk the remaining steps in order: invoke each node on the current
state, merge a returned partial update (a `None` return leaves the state
unchanged), abort on a node error (spec §4.4). -/
def runSteps : List (String × NodeFn) → BlogState → RunResult
  | [], s => { result := Except.ok s, llmCalls := [], invoked := [], states := [] }
  | (n, f) :: rest, s =>
    let r := f s
    match r.fst with
    | Except.error e =>
      { result := Except.error e, llmCalls := r.snd, invoked := [n], states := [] }
    | Except.ok upd =>
      let s' := match upd with
        | some u => mergeState s u
        | none => s
      let tail := runSteps rest s'
      { result := tail.result, llmCalls := r.snd ++ tail.llmCalls,
        invoked := n :: tail.invoked, states := s' :: tail.states }

/-- Modelled from the spec: §4.4 `run(initialState)` walks the compiled
order, threading the state through every node, and returns the final
state. -/
def CompiledGraph.run (c : CompiledGraph) (s : BlogState) : RunResult :=
  let t := runSteps c.steps s
  { t with states := s :: t.states }

/-- `GraphBuilder.__init__`: holds the LLM and a fresh, empty graph
definition. -/
structure GraphBuilder where
  llm : String → String
  graph : StateGraph

/-- `GraphBuilder(llm)`: a fresh builder with an empty `StateGraph`. -/
def GraphBuilder.init (llm : String → String) : GraphBuilder :=
  { llm := llm, graph := {} }

/-- `GraphBuilder.build_topic_graph`: register the two nodes and chain
START → title_creation → content_generation → END. -/
def GraphBuilder.build_topic_graph (b : GraphBuilder) : GraphBuilder :=
  let g := b.graph
  let g := g.add_node "title_creation" (title_creation b.llm)
  let g := g.add_node "content_generation" (content_generation b.llm)
  let g := g.add_edge START "title_creation"
  let g := g.add_edge "title_creation" "content_generation"
  let g := g.add_edge "content_generation" ENDS
  { b with graph := g }

/-- `GraphBuilder.setup_graph(usecase)`: build the topic topology only
when the tag is exactly "topic", then compile whatever the builder's
graph currently holds. -/
def GraphBuilder.setup_graph (b : GraphBuilder) (usecase : String) :
    Except GraphError CompiledGraph :=
  let b := if usecase = "topic" then b.build_topic_graph else b
  b.graph.compile

/-- The compiled topic graph as built by a fresh builder, the module-level
`graph_builder.build_topic_graph().compile()` of the source. -/
def topicGraph (llm : String → String) : Except GraphError CompiledGraph :=
  (GraphBuilder.init llm).build_topic_graph.graph.compile

/-- The steps the topic graph compiles to. -/
def topicSteps (llm : String → String) : List (String × NodeFn) :=
  [("title_creation", title_creation llm), ("content_generation", content_generation llm)]

theorem topicGraph_eq (llm : String → String) :
    topicGraph llm = Except.ok { steps := topicSteps llm } := rfl

/-- The state dict has a `blog` key carrying a `title`. -/
def titleSet (s : BlogState) : Bool :=
  (s.blog.bind BlogVal.title).isSome

/-- The state dict has a `blog` key carrying a `content`. -/
def contentSet (s : BlogState) : Bool :=
  (s.blog.bind BlogVal.content).isSome

theorem title_creation_skip (llm : String → String) (s : BlogState)
    (h : topicTruthy s = false) : title_creation llm s = (Except.ok none, []) := by
  unfold topicTruthy at h
  unfold title_creation
  cases hs : s.topic with
  | none => rfl
  | some t =>
    rw [hs] at h
    have ht : t = "" := by simpa using h
    simp [ht]

theorem content_generation_skip (llm : String → String) (s : BlogState)
    (h : topicTruthy s = false) : content_generation llm s = (Except.ok none, []) := by
  unfold topicTruthy at h
  unfold content_generation
  cases hs : s.topic with
  | none => rfl
  | some t =>
    rw [hs] at h
    have ht : t = "" := by simpa using h
    simp [ht]

theorem runSteps_topic_skip (llm : String → String) (s : BlogState)
    (h : topicTruthy s = false) :
    runSteps (topicSteps llm) s =
      { result := Except.ok s, llmCalls := [], invoked := ["title_creation", "content_generation"],
        states := [s, s] } := by
  simp [runSteps, topicSteps, title_creation_skip llm s h, content_generation_skip llm s h]

theorem runSteps_topic_truthy (llm : String → String) (s : BlogState) (t : String)
    (h1 : s.topic = some t) (h2 : ¬ t = "") :
    runSteps (topicSteps llm) s =
      { result := Except.ok ⟨some t, some ⟨some (llm (titlePrompt t)), some (llm (contentPrompt t))⟩⟩,
        llmCalls := [titlePrompt t, contentPrompt t],
        invoked := ["title_creation", "content_generation"],
        states := [⟨some t, some ⟨some (llm (titlePrompt t)), none⟩⟩,
                   ⟨some t, some ⟨some (llm (titlePrompt t)), some (llm (contentPrompt t))⟩⟩] } := by
  simp [runSteps, topicSteps, title_creation, content_generation, mergeState, h1, h2]

/-- C1: if `content_generation` is invoked on a state whose topic is
present and non-empty but whose `blog.title` is absent, it fails with a
missing-field error that propagates to the caller. -/
theorem content_generation_missing_title (llm : String → String) (s : BlogState) (t : String)
    (h1 : s.topic = some t) (h2 : ¬ t = "")
    (h3 : s.blog.bind BlogVal.title = none) :
    ∃ f, (content_generation llm s).fst = Except.error (NodeError.missingField f) := by
  unfold content_generation
  rw [h1]
  cases hb : s.blog with
  | none => exact ⟨"blog", by simp [h2]⟩
  | some b =>
    rw [hb] at h3
    have h4 : b.title = none := h3
    exact ⟨"title", by simp [h2, h4]⟩

theorem content_generation_missing_title_witness :
    ∃ f, (content_generation (fun _ => "r") ⟨some "ai", none⟩).fst
      = Except.error (NodeError.missingField f) :=
  content_generation_missing_title (fun _ => "r") ⟨some "ai", none⟩ "ai"
    rfl (by decide) rfl

/-- C2 counterexample: on a fresh builder, `setup_graph` with the
unrecognized tag "nonexistent-usecase" does not return a compiled graph —
the compile of the still-empty definition fails validation, so the claim
that setup with an unknown tag never raises is false at this input. -/
theorem setup_unknown_usecase_counterexample :
    (GraphBuilder.init (fun _ => "")).setup_graph "nonexistent-usecase"
      = Except.error (GraphError.validation "no single path from START to END") := rfl

/-- C2 amended: `setup_graph` with an unrecognized usecase tag performs no
dispatch-level error handling: it leaves the graph definition unchanged
and returns the result of compiling it — which itself fails validation
when the definition is empty or invalid. -/
theorem setup_unknown_usecase (b : GraphBuilder) (usecase : String)
    (h : ¬ usecase = "topic") :
    b.setup_graph usecase = b.graph.compile := by
  simp [GraphBuilder.setup_graph, h]

theorem setup_unknown_usecase_witness :
    (GraphBuilder.init (fun _ => "")).build_topic_graph.setup_graph "nonexistent-usecase"
      = (GraphBuilder.init (fun _ => "")).build_topic_graph.graph.compile :=
  setup_unknown_usecase (GraphBuilder.init (fun _ => "")).build_topic_graph
    "nonexistent-usecase" (by decide)

/-- C3 counterexample: for the topic-less input state whose `blog` key is
already present, the run completes with no LLM call but the final state
does have a `blog` key — the claim that every topic-less input yields a
final state with no `blog` key is false at this input. -/
theorem run_no_topic_counterexample :
    (topicGraph (fun _ => "")).map
        (fun c => ((c.run ⟨none, some ⟨some "t", none⟩⟩).result,
                   (c.run ⟨none, some ⟨some "t", none⟩⟩).llmCalls))
      = Except.ok (Except.ok ⟨none, some ⟨some "t", none⟩⟩, [])
    ∧ (BlogState.mk none (some ⟨some "t", none⟩)).blog ≠ none := by
  constructor
  · rw [topicGraph_eq]
    simp [Except.map, CompiledGraph.run,
      runSteps_topic_skip (fun _ => "") ⟨none, some ⟨some "t", none⟩⟩ (by decide)]
  · simp

/-- C3 amended: for every input state whose topic key is absent or falsy,
the full run of the compiled topic graph completes with no LLM call and
returns the input state unchanged — in particular, an input with no
`blog` key yields a final state with no `blog` key. -/
theorem run_no_topic (llm : String → String) (s : BlogState) (c : CompiledGraph)
    (htop : topicTruthy s = false) (hc : topicGraph llm = Except.ok c) :
    (c.run s).result = Except.ok s ∧ (c.run s).llmCalls = [] := by
  rw [topicGraph_eq] at hc
  cases hc
  simp [CompiledGraph.run, runSteps_topic_skip llm s htop]

theorem run_no_topic_witness :
    ((CompiledGraph.mk (topicSteps (fun _ => ""))).run ⟨none, none⟩).result
        = Except.ok ⟨none, none⟩
    ∧ ((CompiledGraph.mk (topicSteps (fun _ => ""))).run ⟨none, none⟩).llmCalls = [] :=
  run_no_topic (fun _ => "") ⟨none, none⟩ (CompiledGraph.mk (topicSteps (fun _ => "")))
    (by decide) rfl

/-- C4: for every non-empty topic string T, running the compiled topic
graph on the state holding only that topic invokes `title_creation`
exactly once and `content_generation` exactly once, in that order. -/
theorem run_invokes_both_in_order (llm : String → String) (T : String) (c : CompiledGraph)
    (hT : ¬ T = "") (hc : topicGraph llm = Except.ok c) :
    (c.run ⟨some T, none⟩).invoked = ["title_creation", "content_generation"] := by
  rw [topicGraph_eq] at hc
  cases hc
  simp [CompiledGraph.run, runSteps_topic_truthy llm ⟨some T, none⟩ T rfl hT]

theorem run_invokes_both_in_order_witness :
    ((CompiledGraph.mk (topicSteps (fun _ => "r"))).run ⟨some "ai", none⟩).invoked
      = ["title_creation", "content_generation"] :=
  run_invokes_both_in_order (fun _ => "r") "ai" (CompiledGraph.mk (topicSteps (fun _ => "r")))
    (by decide) rfl

/-- The stub LLM of the end-to-end scenario: answers the title prompt for
"rust vs go" with a fixed title and the content prompt with fixed
content. -/
def stubLLM : String → String := fun p =>
  if p = titlePrompt "rust vs go" then "Rust vs Go: A Deep Dive"
  else if p = contentPrompt "rust vs go" then "## Intro\n..."
  else ""

/-- C5: with topic "rust vs go" and the stub LLM, the compiled topic
graph run returns exactly the state with that topic, the stub title and
the stub content. -/
theorem run_end_to_end :
    (topicGraph stubLLM).map (fun c => (c.run ⟨some "rust vs go", none⟩).result)
      = Except.ok (Except.ok
          ⟨some "rust vs go", some ⟨some "Rust vs Go: A Deep Dive", some "## Intro\n..."⟩⟩) := by
  rw [topicGraph_eq]
  simp only [Except.map]
  rw [CompiledGraph.run, runSteps_topic_truthy stubLLM ⟨some "rust vs go", none⟩ "rust vs go"
    rfl (by decide)]
  have h1 : stubLLM (titlePrompt "rust vs go") = "Rust vs Go: A Deep Dive" := by
    unfold stubLLM
    rw [if_pos rfl]
  have h2 : stubLLM (contentPrompt "rust vs go") = "## Intro\n..." := by
    unfold stubLLM
    rw [if_neg (by decide), if_pos rfl]
  rw [h1, h2]

/-- C6: the state merge is shallow at the top level — merging
`blog := {title := X}` onto `{topic := T}` yields `{topic := T, blog :=
{title := X}}`, merging `blog := {title := X, content := Y}` onto that
replaces the blog value wholesale, and the title in the second update is
carried forward because `content_generation` reads it from the incoming
state and writes it into its returned update. -/
theorem merge_shallow (T X Y : String) :
    mergeState ⟨some T, none⟩ ⟨none, some ⟨some X, none⟩⟩ = ⟨some T, some ⟨some X, none⟩⟩ ∧
    mergeState ⟨some T, some ⟨some X, none⟩⟩ ⟨none, some ⟨some X, some Y⟩⟩
      = ⟨some T, some ⟨some X, some Y⟩⟩ ∧
    ∀ (llm : String → String) (s : BlogState) (b : BlogVal),
      s.topic = some T → ¬ T = "" → s.blog = some b → b.title = some X →
      (content_generation llm s).fst
        = Except.ok (some ⟨none, some ⟨some X, some (llm (contentPrompt T))⟩⟩) := by
  refine ⟨rfl, rfl, ?_⟩
  intro llm s b h1 h2 h3 h4
  simp [content_generation, h1, h2, h3, h4]

theorem merge_shallow_witness :
    (content_generation (fun _ => "c") ⟨some "t", some ⟨some "x", none⟩⟩).fst
      = Except.ok (some ⟨none, some ⟨some "x", some "c"⟩⟩) :=
  (merge_shallow "t" "x" "y").2.2 (fun _ => "c") ⟨some "t", some ⟨some "x", none⟩⟩
    ⟨some "x", none⟩ rfl (by decide) rfl rfl

/-- C7: along the state trace of any run of the compiled topic graph,
once `blog.title` is set it stays set across every later node's merged
update, and whenever a node's update newly sets `blog.content`, the
pre-update state already had `blog.title` set. -/
theorem run_state_invariant (llm : String → String) (s : BlogState) (c : CompiledGraph)
    (hc : topicGraph llm = Except.ok c) :
    List.Chain' (fun a b => (titleSet a = true → titleSet b = true) ∧
      (contentSet b = true → contentSet a = false → titleSet a = true))
      ((c.run s).states) := by
  rw [topicGraph_eq] at hc
  cases hc
  by_cases h : topicTruthy s = true
  · unfold topicTruthy at h
    cases hs : s.topic with
    | none => rw [hs] at h; cases h
    | some t =>
      rw [hs] at h
      have ht : ¬ t = "" := by simpa using h
      simp [CompiledGraph.run, runSteps_topic_truthy llm s t hs ht, titleSet, contentSet]
  · have h' : topicTruthy s = false := by simpa using h
    simp only [CompiledGraph.run, runSteps_topic_skip llm s h']
    refine List.Chain'.cons ⟨fun hx => hx, fun hc1 hc2 => ?_⟩
      (List.Chain'.cons ⟨fun hx => hx, fun hc1 hc2 => ?_⟩ (List.chain'_singleton s)) <;>
    · rw [hc1] at hc2
      cases hc2

theorem run_state_invariant_witness :
    List.Chain' (fun a b => (titleSet a = true → titleSet b = true) ∧
      (contentSet b = true → contentSet a = false → titleSet a = true))
      (((CompiledGraph.mk (topicSteps (fun _ => "r"))).run ⟨some "ai", none⟩).states) :=
  run_state_invariant (fun _ => "r") ⟨some "ai", none⟩
    (CompiledGraph.mk (topicSteps (fun _ => "r"))) rfl

/-- C8: each invocation of `title_creation` or `content_generation` on a
state whose topic precondition holds sends exactly one prompt to the LLM
— the freshly formatted prompt for the current topic, with no retries and
no reuse of a previous response. -/
theorem one_llm_call (llm : String → String) (s : BlogState) (t : String)
    (h1 : s.topic = some t) (h2 : ¬ t = "") :
    (title_creation llm s).snd = [titlePrompt t] ∧
    (content_generation llm s).snd = [contentPrompt t] := by
  constructor
  · simp [title_creation, h1, h2]
  · cases hb : s.blog with
    | none => simp [content_generation, h1, h2, hb]
    | some b =>
      cases hti : b.title with
      | none => simp [content_generation, h1, h2, hb, hti]
      | some ti => simp [content_generation, h1, h2, hb, hti]

theorem one_llm_call_witness :
    (title_creation (fun _ => "r") ⟨some "ai", none⟩).snd = [titlePrompt "ai"] ∧
    (content_generation (fun _ => "r") ⟨some "ai", none⟩).snd = [contentPrompt "ai"] :=
  one_llm_call (fun _ => "r") ⟨some "ai", none⟩ "ai" rfl (by decide)

/-- C9: compilation is deterministic — two compiles of the same
unmodified graph definition yield compiled graphs with identical node
execution orders. -/
theorem compile_idempotent (g : StateGraph) (c₁ c₂ : CompiledGraph)
    (h₁ : g.compile = Except.ok c₁) (h₂ : g.compile = Except.ok c₂) :
    c₁.order = c₂.order := by
  rw [h₁] at h₂
  cases h₂
  rfl

theorem compile_idempotent_witness :
    (CompiledGraph.mk (topicSteps (fun _ => "r"))).order
      = (CompiledGraph.mk (topicSteps (fun _ => "r"))).order :=
  compile_idempotent (GraphBuilder.init (fun _ => "r")).build_topic_graph.graph
    (CompiledGraph.mk (topicSteps (fun _ => "r")))
    (CompiledGraph.mk (topicSteps (fun _ => "r"))) rfl rfl

/-- C10: every partial update either node returns carries only the `blog`
key and never the `topic` key, and a full run of the compiled topic graph
leaves the topic field of the state unchanged. -/
theorem nodes_frame (llm : String → String) (s : BlogState) :
    (∀ u, (title_creation llm s).fst = Except.ok (some u) → u.topic = none) ∧
    (∀ u, (content_generation llm s).fst = Except.ok (some u) → u.topic = none) ∧
    (∀ c s', topicGraph llm = Except.ok c → (c.run s).result = Except.ok s' →
      s'.topic = s.topic) := by
  refine ⟨?_, ?_, ?_⟩
  · intro u hu
    cases hs : s.topic with
    | none => simp [title_creation, hs] at hu
    | some t =>
      by_cases ht : t = ""
      · simp [title_creation, hs, ht] at hu
      · simp [title_creation, hs, ht] at hu
        rw [← hu]
  · intro u hu
    cases hs : s.topic with
    | none => simp [content_generation, hs] at hu
    | some t =>
      by_cases ht : t = ""
      · simp [content_generation, hs, ht] at hu
      · cases hb : s.blog with
        | none => simp [content_generation, hs, ht, hb] at hu
        | some b =>
          cases hti : b.title with
          | none => simp [content_generation, hs, ht, hb, hti] at hu
          | some ti =>
            simp [content_generation, hs, ht, hb, hti] at hu
            rw [← hu]
  · intro c s' hc hrun
    rw [topicGraph_eq] at hc
    cases hc
    by_cases h : topicTruthy s = true
    · unfold topicTruthy at h
      cases hs : s.topic with
      | none => rw [hs] at h; cases h
      | some t =>
        rw [hs] at h
        have ht : ¬ t = "" := by simpa using h
        rw [CompiledGraph.run, runSteps_topic_truthy llm s t hs ht] at hrun
        cases hrun
        rfl
    · have h' : topicTruthy s = false := by simpa using h
      rw [CompiledGraph.run, runSteps_topic_skip llm s h'] at hrun
      cases hrun
      rfl

theorem nodes_frame_witness :
    BlogState.topic ⟨some "ai", some ⟨some "r", some "r"⟩⟩
      = BlogState.topic ⟨some "ai", none⟩ :=
  (nodes_frame (fun _ => "r") ⟨some "ai", none⟩).2.2
    (CompiledGraph.mk (topicSteps (fun _ => "r")))
    ⟨some "ai", some ⟨some "r", some "r"⟩⟩ rfl rfl

end BlogGen
